/-
  Verification of the automation-agent core against its specification.

  Shallow embedding of the Python sources:
    * src/auth/oauth2.py     — OAuth2Manager (handshake state cache, token exchange, refresh)
    * src/core/agent.py      — AutomationAgent (execute_command, _call_llm_with_functions,
                               _execute_function_call, rollback_action)
    * src/database/models.py — AutomationAction / FunctionCall / OAuthToken records

  External effects (network calls to providers and service adapters, the LLM,
  wall-clock readings, random nonce generation) are passed in as explicit
  parameters ("oracles"), so every embedded operation is a pure function of
  its inputs.  Database sessions become explicit record stores passed and
  returned by each operation.
-/
import Mathlib

namespace AutomationCore

/-! ## JSON-like values

Python dictionaries flowing through the agent (`parameters`, `response`,
`rollback_parameters`, provider token payloads) are modelled as association
lists from strings to a small value type.  `PVal.null` is Python `None`. -/

inductive PVal where
  | str : String → PVal
  | int : Int → PVal
  | bool : Bool → PVal
  | null : PVal
deriving DecidableEq, Repr

abbrev Dict := List (String × PVal)

/-- Python `d[k]` / `d.get(k)` lookup: first binding of the key, if present. -/
def dictGet (d : Dict) (k : String) : Option PVal :=
  (d.find? (fun p => p.1 == k)).map (fun p => p.2)

/-- Python `d.get(k)` (missing key yields `None`). -/
def dictGetN (d : Dict) (k : String) : PVal :=
  (dictGet d k).getD PVal.null

/-- Python `d.get(k, default)`. -/
def dictGetD (d : Dict) (k : String) (v : PVal) : PVal :=
  (dictGet d k).getD v

/-! ## OAuth2 handshake (src/auth/oauth2.py, `OAuth2Manager`)

The `_state_cache` dictionary maps an opaque nonce (the OAuth `state`
parameter) to `{user_id, service, timestamp}`.  Times are seconds as `Nat`
(Python `time.time()`). -/

/-- One entry of `OAuth2Manager._state_cache`. -/
structure HandshakeState where
  user_id : Nat
  service : String
  timestamp : Nat
deriving DecidableEq, Repr

abbrev StateCache := List (String × HandshakeState)

/-- Dictionary lookup on the state cache. -/
def cacheGet (c : StateCache) (k : String) : Option HandshakeState :=
  (c.find? (fun p => p.1 == k)).map (fun p => p.2)

/-- Python `dict[k] = v`: insert-or-overwrite. -/
def cacheInsert (c : StateCache) (k : String) (v : HandshakeState) : StateCache :=
  (k, v) :: c.filter (fun p => p.1 != k)

/-- Python `dict.pop(k)`: remove the binding of `k`. -/
def cachePop (c : StateCache) (k : String) : StateCache :=
  c.filter (fun p => p.1 != k)

/-- The services configured in `OAuth2Manager.oauth_configs`. -/
def supportedServices : List String := ["slack", "jira", "github"]

/-- `OAuth2Manager.generate_auth_url` — the state-cache effect.

The nonce (`secrets.token_urlsafe(32)`) and the clock reading
(`time.time()`) are inputs.  The textual authorization URL (urlencode of
per-service parameters) carries no handshake state and is not modelled;
`none` is returned for an unsupported service (`raise ValueError`). -/
def generate_auth_url (cache : StateCache) (service : String) (user_id : Nat)
    (nonce : String) (now : Nat) : Option StateCache :=
  if service ∈ supportedServices then
    some (cacheInsert cache nonce { user_id := user_id, service := service, timestamp := now })
  else
    none

/-- Errors raised by `exchange_code_for_tokens` (`raise ValueError(...)` in the
source, distinguished here by message):
  * `invalidState`   — "Invalid or expired state parameter"
  * `expiredState`   — "State parameter has expired"
  * `serviceMismatch`— "Service mismatch in state parameter"
  * `exchangeFailed` — provider-side failure ("OAuth error: ..." or
     "Token exchange failed: ...") -/
inductive GrantError where
  | invalidState
  | expiredState
  | serviceMismatch
  | exchangeFailed (msg : String)
deriving DecidableEq, Repr

/-- The standardized token payload built by `exchange_code_for_tokens`
(lines 144–152 of oauth2.py; the slack/jira-specific extra fields are
copied from the provider response the same way). -/
structure StandardizedTokens where
  access_token : PVal
  refresh_token : PVal
  expires_in : PVal
  token_type : PVal
  scope : PVal
  service : String
  user_id : Nat
deriving DecidableEq, Repr

/-- Outcome of the provider `POST token_url`: either a transport error
(`requests.RequestException`) or the decoded JSON body. -/
abbrev NetResult := Except String Dict

/-- `OAuth2Manager.exchange_code_for_tokens`.

Returns the result together with the state cache after the call (the
handshake entry is consumed by `pop` before any validity check, so it is
gone after every attempt that found it). -/
def exchange_code_for_tokens (cache : StateCache) (service : String) (code : String)
    (state : String) (now : Nat) (net : NetResult) :
    Except GrantError StandardizedTokens × StateCache :=
  match cacheGet cache state with
  | none => (.error .invalidState, cache)
  | some st =>
    let cache' := cachePop cache state
    if now - st.timestamp > 300 then
      (.error .expiredState, cache')
    else if service != st.service then
      (.error .serviceMismatch, cache')
    else
      match net with
      | .error e => (.error (.exchangeFailed ("Token exchange failed: " ++ e)), cache')
      | .ok tokens =>
        if (dictGet tokens "error").isSome then
          (.error (.exchangeFailed "OAuth error"), cache')
        else
          (.ok { access_token := dictGetN tokens "access_token"
                 refresh_token := dictGetN tokens "refresh_token"
                 expires_in := dictGetN tokens "expires_in"
                 token_type := dictGetD tokens "token_type" (.str "Bearer")
                 scope := dictGetD tokens "scope" (.str "scopes")
                 service := service
                 user_id := st.user_id }, cache')

/-- The refreshed-token payload built by `refresh_access_token`
(lines 206–212 of oauth2.py). -/
structure RefreshedTokens where
  access_token : PVal
  refresh_token : PVal
  expires_in : PVal
  token_type : PVal
  scope : PVal
deriving DecidableEq, Repr

/-- `OAuth2Manager.refresh_access_token`: POSTs the refresh grant to the
provider's token endpoint; on success standardizes, keeping the old refresh
token when the provider does not return a new one. -/
def refresh_access_token (service : String) (refresh_token : String)
    (net : NetResult) : Except String RefreshedTokens :=
  if service ∉ supportedServices then
    .error ("Unsupported service: " ++ service)
  else
    match net with
    | .error e => .error ("Token refresh failed: " ++ e)
    | .ok tokens =>
      if (dictGet tokens "error").isSome then
        .error "Token refresh error"
      else
        .ok { access_token := dictGetN tokens "access_token"
              refresh_token := dictGetD tokens "refresh_token" (.str refresh_token)
              expires_in := dictGetN tokens "expires_in"
              token_type := dictGetD tokens "token_type" (.str "Bearer")
              scope := dictGetN tokens "scope" }

/-! ## Status and service enumerations (src/database/models.py) -/

/-- `ActionStatus` from models.py. -/
inductive ActionStatus where
  | pending
  | in_progress
  | completed
  | failed
  | rolled_back
deriving DecidableEq, Repr

/-- `ServiceType` from models.py. -/
inductive ServiceType where
  | slack
  | jira
  | aws_s3
  | github
  | openai
deriving DecidableEq, Repr

/-! ## Token records and the Credential Lifecycle Manager's token serving -/

/-- `OAuthToken` from models.py (the fields the credential lifecycle
touches): one (user, service) credential, expiry timestamp in seconds,
`none` meaning non-expiring. -/
structure OAuthToken where
  user_id : Nat
  service_type : ServiceType
  access_token : String
  refresh_token : Option String
  expires_at : Option Nat
deriving DecidableEq, Repr

abbrev TokenStore := List OAuthToken

/-- The provider refresh endpoint's reply as seen by the credential
lifecycle: a fresh access token, an optional new refresh token, and an
optional new expiry. -/
structure RefreshReply where
  access_token : String
  refresh_token : Option String
  expires_at : Option Nat
deriving DecidableEq, Repr

/-- Modelled from the spec: `oauth2_manager.get_valid_token(db, user_id,
service)` is invoked by every service integration (slack.py line 44,
jira.py line 36, github.py line 31, ...) but no definition of it appears in
the available sources; only `refresh_access_token` is defined.  Modelled
from spec §4.4: "returns the current access token if not expired; if
expired and a refresh token exists, transparently refreshes (via the
provider's refresh endpoint) and persists the new token before returning
it; if expired with no refresh token, returns `NoCredential`."

`refreshEp` stands for the provider's refresh endpoint (`none` = the
refresh call failed); the old refresh token is kept when the provider does
not return a new one, as `refresh_access_token` does in oauth2.py.
Returns the served token (`none` = NoCredential) with the token store
after the call. -/
def get_valid_token (store : TokenStore) (user_id : Nat) (service : ServiceType)
    (now : Nat) (refreshEp : String → Option RefreshReply) :
    Option String × TokenStore :=
  match store.find? (fun t => t.user_id == user_id && t.service_type == service) with
  | none => (none, store)
  | some rec =>
    let expired := match rec.expires_at with
      | none => false
      | some e => e ≤ now
    if !expired then
      (some rec.access_token, store)
    else
      match rec.refresh_token with
      | none => (none, store)
      | some rt =>
        match refreshEp rt with
        | none => (none, store)
        | some reply =>
          let newRec : OAuthToken :=
            { rec with
              access_token := reply.access_token
              refresh_token := some ((reply.refresh_token).getD rt)
              expires_at := reply.expires_at }
          let store' := store.map (fun t =>
            if t.user_id == user_id && t.service_type == service then newRec else t)
          (some reply.access_token, store')

/-! ## The Action ledger records (src/database/models.py) -/

/-- The per-intent result dictionary returned by
`AutomationAgent._execute_function_call` (keys `function`, `parameters`,
`result`/`error`, `status`). -/
structure CallResult where
  function : String
  parameters : Dict
  result : Option Dict
  error : Option String
  status : String
deriving DecidableEq, Repr

/-- The dictionary returned by `AutomationAgent._call_llm_with_functions`:
either `{"response": content}` when the model made no function calls, or
`{"function_results": ..., "summary": ...}`. -/
inductive AgentOutput where
  | plain (response : Option String)
  | results (function_results : List CallResult) (summary : String)
deriving DecidableEq, Repr

/-- One entry of the `rollback_results` list built by
`AutomationAgent.rollback_action`. -/
structure RollbackResult where
  function_call_id : Nat
  rollback_function : Option String
  result : Option Dict
  error : Option String
deriving DecidableEq, Repr

/-- `FunctionCall` from models.py (timing in milliseconds as `Nat`). -/
structure FunctionCall where
  id : Nat
  automation_action_id : Nat
  function_name : String
  service_type : Option ServiceType
  parameters : Dict
  response : Option Dict
  status : ActionStatus
  error_message : Option String
  called_at : Nat
  completed_at : Option Nat
  duration_ms : Option Nat
  rollback_function : Option String
  rollback_parameters : Option Dict
deriving DecidableEq, Repr

/-- `AutomationAction` from models.py. -/
structure AutomationAction where
  id : Nat
  user_id : Nat
  action_type : String
  command : String
  status : ActionStatus
  input_data : Option Dict
  output_data : Option AgentOutput
  error_message : Option String
  rollback_data : Option (List RollbackResult)
  can_rollback : Bool
  rolled_back_at : Option Nat
  rollback_reason : Option String
  started_at : Nat
  completed_at : Option Nat
  duration_ms : Option Nat
deriving DecidableEq, Repr

/-- The payload carried in `AgentResponse.data`. -/
inductive AgentData where
  | output (o : AgentOutput)
  | rollback_results (rs : List RollbackResult)
deriving DecidableEq, Repr

/-- `AgentResponse` dataclass from agent.py. -/
structure AgentResponse where
  success : Bool
  message : String
  data : Option AgentData
  action_id : Option Nat
  rollback_available : Bool
deriving DecidableEq, Repr

/-- The durable store the agent reads and writes (automation_actions and
function_calls tables). -/
structure DB where
  actions : List AutomationAction
  calls : List FunctionCall
deriving DecidableEq, Repr

/-! ## Function-call dispatch (src/core/agent.py) -/

/-- What the service adapter / internal analysis returned for one intent:
the result dictionary, or a raised exception's message. -/
inductive AdapterOutcome where
  | ok (result : Dict)
  | raise (msg : String)
deriving DecidableEq, Repr

/-- One intent as dispatched by `_call_llm_with_functions`: the function
call chosen by the model, the adapter's behaviour when invoked, and the
two wall-clock readings taken in `_execute_function_call`. -/
structure IntentEvent where
  name : String
  arguments : Dict
  outcome : AdapterOutcome
  called_at : Nat
  finished_at : Nat
deriving DecidableEq, Repr

/-- Which `ServiceType` each branch of `_execute_function_call` assigns to
the call record (`analyze_text` explicitly assigns `None`; an unknown name
never reaches an assignment). -/
def branchService : String → Option ServiceType
  | "get_slack_messages" => some .slack
  | "create_jira_ticket" => some .jira
  | "upload_to_s3" => some .aws_s3
  | "search_github_repos" => some .github
  | _ => none

/-- The function names `_execute_function_call` dispatches on. -/
def knownFunction (n : String) : Bool :=
  n ∈ ["get_slack_messages", "create_jira_ticket", "upload_to_s3",
       "search_github_repos", "analyze_text"]

/-- The `parameters[...]` subscripts each branch evaluates (a missing key
raises `KeyError`, caught by the surrounding handler like any failure). -/
def requiredKeys : String → List String
  | "get_slack_messages" => ["channel_name"]
  | "create_jira_ticket" => ["project_key", "summary", "description"]
  | "upload_to_s3" => ["content", "key"]
  | "search_github_repos" => ["query"]
  | "analyze_text" => ["text"]
  | _ => []

/-- The body of the `try:` block of `_execute_function_call` for one
intent: unknown name raises `ValueError("Unknown function: ...")`; a
missing required parameter raises `KeyError`; otherwise the adapter's
outcome decides. -/
def runIntent (ev : IntentEvent) : Except String Dict :=
  if !knownFunction ev.name then
    .error ("Unknown function: " ++ ev.name)
  else if (requiredKeys ev.name).any (fun k => (dictGet ev.arguments k).isNone) then
    .error "KeyError"
  else
    match ev.outcome with
    | .ok r => .ok r
    | .raise m => .error m

/-- The compensation recorded on success, per branch of
`_execute_function_call`: ticket creation compensates with
`delete_jira_ticket` keyed by the returned ticket key; upload compensates
with `delete_s3_object` keyed by the uploaded path.  Other branches record
none. -/
def compensationOf (name : String) (args : Dict) (result : Dict) :
    Option (String × Dict) :=
  match name with
  | "create_jira_ticket" => some ("delete_jira_ticket", [("ticket_key", dictGetN result "key")])
  | "upload_to_s3" => some ("delete_s3_object", [("key", dictGetN args "key")])
  | _ => none

/-- `AutomationAgent._execute_function_call`: builds, executes and
finalizes one `FunctionCall` record and returns it with the per-intent
result entry.  On success the status, response, timing and the
compensating data are set together; on failure the status, error and
completion time are set (no duration, no compensating data). -/
def execFunctionCall (action_id : Nat) (fcid : Nat) (ev : IntentEvent) :
    FunctionCall × CallResult :=
  let base : FunctionCall :=
    { id := fcid
      automation_action_id := action_id
      function_name := ev.name
      service_type := branchService ev.name
      parameters := ev.arguments
      response := none
      status := ActionStatus.pending
      error_message := none
      called_at := ev.called_at
      completed_at := none
      duration_ms := none
      rollback_function := none
      rollback_parameters := none }
  match runIntent ev with
  | .ok result =>
    let comp := compensationOf ev.name ev.arguments result
    ({ base with
       status := ActionStatus.completed
       response := some result
       completed_at := some ev.finished_at
       duration_ms := some (ev.finished_at - ev.called_at)
       rollback_function := comp.map (fun c => c.1)
       rollback_parameters := comp.map (fun c => c.2) },
     { function := ev.name, parameters := ev.arguments,
       result := some result, error := none, status := "success" })
  | .error msg =>
    ({ base with
       status := ActionStatus.failed
       error_message := some msg
       completed_at := some ev.finished_at },
     { function := ev.name, parameters := ev.arguments,
       result := none, error := some msg, status := "failed" })

/-- What the LLM call in `_call_llm_with_functions` did: raised (network
or API failure), or responded with optional text content and a list of
function calls to dispatch. -/
inductive LLMOutcome where
  | raise (msg : String)
  | respond (content : Option String) (calls : List IntentEvent)
deriving DecidableEq, Repr

/-- The `for function_call in response.function_calls` loop of
`_call_llm_with_functions`: one `_execute_function_call` per intent, in
list order, with record ids assigned sequentially. -/
def dispatchAll (action_id : Nat) (cid : Nat) :
    List IntentEvent → List (FunctionCall × CallResult)
  | [] => []
  | ev :: rest => execFunctionCall action_id cid ev :: dispatchAll action_id (cid + 1) rest

/-- `AutomationAgent._call_llm_with_functions`: dispatches each function
call in order (ids are assigned sequentially from `firstCallId`), then
shapes the output dictionary.  A raised LLM call propagates to
`execute_command`'s handler. -/
def callLlmWithFunctions (action_id : Nat) (firstCallId : Nat) (o : LLMOutcome) :
    Except String (AgentOutput × List FunctionCall) :=
  match o with
  | .raise m => .error m
  | .respond content evs =>
    let pairs := dispatchAll action_id firstCallId evs
    let fcs := pairs.map (fun q => q.1)
    let results := pairs.map (fun q => q.2)
    if results.isEmpty then
      .ok (AgentOutput.plain content, fcs)
    else
      let summary := match content with
        | some c => if c == "" then "Functions executed successfully" else c
        | none => "Functions executed successfully"
      .ok (AgentOutput.results results summary, fcs)

/-- `AutomationAgent.execute_command`: creates the Action record in
IN_PROGRESS, dispatches via `_call_llm_with_functions`, then finalizes to
COMPLETED (output, completion time, duration) or, when the dispatch
raised, to FAILED (error, completion time).  `t_start`/`t_end` are the
`datetime.utcnow()` readings, in milliseconds. -/
def executeCommand (db : DB) (user_id : Nat) (command : String)
    (t_start t_end : Nat) (llm : LLMOutcome) (actionId firstCallId : Nat) :
    AgentResponse × DB :=
  let action : AutomationAction :=
    { id := actionId
      user_id := user_id
      action_type := "ai_automation"
      command := command
      status := ActionStatus.in_progress
      input_data := some [("command", PVal.str command)]
      output_data := none
      error_message := none
      rollback_data := none
      can_rollback := false
      rolled_back_at := none
      rollback_reason := none
      started_at := t_start
      completed_at := none
      duration_ms := none }
  match callLlmWithFunctions actionId firstCallId llm with
  | .ok (out, fcs) =>
    let action' := { action with
      status := ActionStatus.completed
      completed_at := some t_end
      duration_ms := some (t_end - t_start)
      output_data := some out }
    ({ success := true
       message := "Command executed successfully"
       data := some (AgentData.output out)
       action_id := some actionId
       rollback_available := action'.can_rollback },
     { actions := db.actions ++ [action'], calls := db.calls ++ fcs })
  | .error msg =>
    let action' := { action with
      status := ActionStatus.failed
      error_message := some msg
      completed_at := some t_end }
    ({ success := false
       message := "Command execution failed: " ++ msg
       data := none
       action_id := some actionId
       rollback_available := false },
     { actions := db.actions ++ [action'], calls := db.calls })

/-! ## Rollback engine (`AutomationAgent.rollback_action`) -/

/-- The query filter: Calls of the Action whose `rollback_function` is not
null. -/
def compensableCalls (db : DB) (action_id : Nat) : List FunctionCall :=
  db.calls.filter (fun c => c.automation_action_id == action_id && c.rollback_function.isSome)

instance decCalledAtGe :
    DecidableRel (fun (a b : FunctionCall) => b.called_at ≤ a.called_at) :=
  fun a b => Nat.decLe b.called_at a.called_at

instance totalCalledAtGe :
    IsTotal FunctionCall (fun a b => b.called_at ≤ a.called_at) :=
  ⟨fun a b => le_total b.called_at a.called_at⟩

instance transCalledAtGe :
    IsTrans FunctionCall (fun a b => b.called_at ≤ a.called_at) :=
  ⟨fun _ _ _ hab hbc => le_trans hbc hab⟩

/-- The `order_by(FunctionCall.called_at.desc())` of the query: the
compensable calls sorted by call time descending. -/
def rollbackOrder (db : DB) (action_id : Nat) : List FunctionCall :=
  List.insertionSort (fun a b => b.called_at ≤ a.called_at) (compensableCalls db action_id)

/-- `AutomationAgent.rollback_action`: precondition checks in order
(existence and ownership, `can_rollback`, not already rolled back), then
one compensation attempt per selected call in descending call-time order
(`comp` stands for `getattr(integration, rollback_function)(**rollback_parameters)`;
a raised attempt is caught and recorded per call), then the Action is
finalized to ROLLED_BACK. -/
def rollback_action (db : DB) (user_id action_id : Nat) (reason : String)
    (now : Nat) (comp : FunctionCall → Except String Dict) :
    AgentResponse × DB :=
  match db.actions.find? (fun a => a.id == action_id && a.user_id == user_id) with
  | none =>
    ({ success := false, message := "Action not found or access denied",
       data := none, action_id := none, rollback_available := false }, db)
  | some action =>
    if !action.can_rollback then
      ({ success := false, message := "Action cannot be rolled back",
         data := none, action_id := none, rollback_available := false }, db)
    else if action.status == ActionStatus.rolled_back then
      ({ success := false, message := "Action already rolled back",
         data := none, action_id := none, rollback_available := false }, db)
    else
      let results := (rollbackOrder db action_id).map (fun fc =>
        match comp fc with
        | .ok r =>
          { function_call_id := fc.id, rollback_function := fc.rollback_function,
            result := some r, error := none : RollbackResult }
        | .error m =>
          { function_call_id := fc.id, rollback_function := fc.rollback_function,
            result := none, error := some m })
      let action' := { action with
        status := ActionStatus.rolled_back
        rolled_back_at := some now
        rollback_reason := some reason
        rollback_data := some results }
      ({ success := true
         message := "Action rolled back successfully"
         data := some (AgentData.rollback_results results)
         action_id := some action_id
         rollback_available := false },
       { db with actions := db.actions.map (fun a => if a.id == action.id then action' else a) })

/-! ## Derived predicates and concrete fixtures -/

/-- An intent fails when its name is not a known capability, a required
parameter is missing, or the adapter raises — the three failure modes of
the `try:` block of `_execute_function_call`. -/
def intentFails (ev : IntentEvent) : Bool :=
  !knownFunction ev.name ||
  (requiredKeys ev.name).any (fun k => (dictGet ev.arguments k).isNone) ||
  (match ev.outcome with
   | AdapterOutcome.ok _ => false
   | AdapterOutcome.raise _ => true)

/-- The capabilities for which `_execute_function_call` declares a
compensating operation. -/
def declaresCompensation (n : String) : Bool :=
  n ∈ ["create_jira_ticket", "upload_to_s3"]

/-- A successful ticket-creation intent (concrete test fixture). -/
def jiraIntentOk : IntentEvent :=
  { name := "create_jira_ticket"
    arguments := [("project_key", PVal.str "P"), ("summary", PVal.str "s"),
                  ("description", PVal.str "d")]
    outcome := AdapterOutcome.ok [("key", PVal.str "P-1")]
    called_at := 1
    finished_at := 2 }

/-- An intent naming an unknown capability (concrete test fixture). -/
def unknownIntent : IntentEvent :=
  { name := "launch_rocket"
    arguments := []
    outcome := AdapterOutcome.ok []
    called_at := 3
    finished_at := 4 }

/-- A rollback-eligible action with one compensable call (fixture for the
rollback success-flag analysis). -/
def dbOneCompensable : DB :=
  { actions := [{ id := 10, user_id := 1, action_type := "ai_automation",
                  command := "upload", status := ActionStatus.completed,
                  input_data := none, output_data := none, error_message := none,
                  rollback_data := none, can_rollback := true,
                  rolled_back_at := none, rollback_reason := none,
                  started_at := 0, completed_at := some 9, duration_ms := some 9 }]
    calls := [{ id := 1, automation_action_id := 10, function_name := "upload_to_s3",
                service_type := some ServiceType.aws_s3,
                parameters := [("content", PVal.str "x"), ("key", PVal.str "daily.txt")],
                response := some [], status := ActionStatus.completed,
                error_message := none, called_at := 5, completed_at := some 6,
                duration_ms := some 1,
                rollback_function := some "delete_s3_object",
                rollback_parameters := some [("key", PVal.str "daily.txt")] }] }

/-- A rollback-eligible action with three compensable calls at strictly
increasing call times (fixture for the rollback-ordering analysis). -/
def dbThreeCompensable : DB :=
  { actions := [{ id := 10, user_id := 1, action_type := "ai_automation",
                  command := "three", status := ActionStatus.completed,
                  input_data := none, output_data := none, error_message := none,
                  rollback_data := none, can_rollback := true,
                  rolled_back_at := none, rollback_reason := none,
                  started_at := 0, completed_at := some 20, duration_ms := some 20 }]
    calls := [{ id := 1, automation_action_id := 10, function_name := "upload_to_s3",
                service_type := some ServiceType.aws_s3, parameters := [],
                response := some [], status := ActionStatus.completed,
                error_message := none, called_at := 5, completed_at := some 6,
                duration_ms := some 1, rollback_function := some "delete_s3_object",
                rollback_parameters := some [("key", PVal.str "a")] },
              { id := 2, automation_action_id := 10, function_name := "create_jira_ticket",
                service_type := some ServiceType.jira, parameters := [],
                response := some [], status := ActionStatus.completed,
                error_message := none, called_at := 7, completed_at := some 8,
                duration_ms := some 1, rollback_function := some "delete_jira_ticket",
                rollback_parameters := some [("ticket_key", PVal.str "P-2")] },
              { id := 3, automation_action_id := 10, function_name := "upload_to_s3",
                service_type := some ServiceType.aws_s3, parameters := [],
                response := some [], status := ActionStatus.completed,
                error_message := none, called_at := 9, completed_at := some 10,
                duration_ms := some 1, rollback_function := some "delete_s3_object",
                rollback_parameters := some [("key", PVal.str "b")] }] }

/-! # Theorems -/

/-! ## Handshake-cache helper lemmas -/

theorem cacheGet_insert (c : StateCache) (k : String) (v : HandshakeState) :
    cacheGet (cacheInsert c k v) k = some v := by
  simp [cacheGet, cacheInsert, List.find?]

theorem cacheGet_pop (c : StateCache) (k : String) :
    cacheGet (cachePop c k) k = none := by
  unfold cacheGet cachePop
  rw [List.find?_eq_none.mpr]
  · rfl
  · intro p hp
    have hmem := List.of_mem_filter hp
    simp only [bne_iff_ne, ne_eq] at hmem
    simp [hmem]

/-- An exchange attempt that finds the handshake entry always removes it,
whatever the attempt's outcome. -/
theorem exchange_consumes (cache : StateCache) (service code nonce : String)
    (now : Nat) (net : NetResult) (hs : HandshakeState)
    (hget : cacheGet cache nonce = some hs) :
    (exchange_code_for_tokens cache service code nonce now net).2 = cachePop cache nonce := by
  unfold exchange_code_for_tokens
  rw [hget]
  dsimp only
  repeat' split
  all_goals rfl

/-- An exchange attempt with a nonce absent from the cache fails with
InvalidState and leaves the cache unchanged. -/
theorem exchange_unknown (cache : StateCache) (service code nonce : String)
    (now : Nat) (net : NetResult)
    (hget : cacheGet cache nonce = none) :
    exchange_code_for_tokens cache service code nonce now net
      = (.error .invalidState, cache) := by
  unfold exchange_code_for_tokens
  rw [hget]

/-! ## C7 -/

/-- Claim C7: a handshake nonce issued by `generate_auth_url` can be
completed exactly once: within the 5-minute window, with the matching
service and a successful provider exchange, `exchange_code_for_tokens`
succeeds; any attempt that finds the nonce consumes it (whether that
attempt succeeds or fails); hence every second attempt with the same
nonce fails with InvalidState. -/
theorem nonce_consumed_exactly_once
    (cache : StateCache) (service : String) (uid : Nat) (nonce : String)
    (now1 : Nat) (cache1 : StateCache)
    (hgen : generate_auth_url cache service uid nonce now1 = some cache1) :
    (∀ code now2 tokens, now2 - now1 ≤ 300 → dictGet tokens "error" = none →
      ∃ st, exchange_code_for_tokens cache1 service code nonce now2 (Except.ok tokens)
          = (Except.ok st, cachePop cache1 nonce)) ∧
    (∀ svc code now2 net,
      cacheGet (exchange_code_for_tokens cache1 svc code nonce now2 net).2 nonce = none) ∧
    (∀ svc code now2 net svc2 code2 now3 net2,
      (exchange_code_for_tokens
          (exchange_code_for_tokens cache1 svc code nonce now2 net).2
          svc2 code2 nonce now3 net2).1 = Except.error GrantError.invalidState) := by
  unfold generate_auth_url at hgen
  split at hgen
  case isFalse => exact absurd hgen (by simp)
  case isTrue hsup =>
    rw [Option.some_inj] at hgen
    subst hgen
    have hget := cacheGet_insert cache nonce ⟨uid, service, now1⟩
    refine ⟨?_, ?_, ?_⟩
    · intro code now2 tokens hwin herr
      have hnotold : ¬ 300 < now2 - now1 := by omega
      refine ⟨{ access_token := dictGetN tokens "access_token"
                refresh_token := dictGetN tokens "refresh_token"
                expires_in := dictGetN tokens "expires_in"
                token_type := dictGetD tokens "token_type" (PVal.str "Bearer")
                scope := dictGetD tokens "scope" (PVal.str "scopes")
                service := service
                user_id := uid }, ?_⟩
      unfold exchange_code_for_tokens
      rw [hget]
      simp [hnotold, herr]
    · intro svc code now2 net
      rw [exchange_consumes _ _ _ _ _ _ _ hget]
      exact cacheGet_pop _ _
    · intro svc code now2 net svc2 code2 now3 net2
      have h2 : cacheGet (exchange_code_for_tokens
          (cacheInsert cache nonce ⟨uid, service, now1⟩) svc code nonce now2 net).2 nonce
          = none := by
        rw [exchange_consumes _ _ _ _ _ _ _ hget]
        exact cacheGet_pop _ _
      rw [exchange_unknown _ _ _ _ _ _ h2]

/-- Witness for C7 at a concrete handshake: service slack, user 1, nonce
issued at time 0, completed at time 100 with a token response, then a
second completion attempt at time 150 is rejected as InvalidState. -/
theorem nonce_consumed_exactly_once_witness :
    (∃ st, exchange_code_for_tokens (cacheInsert [] "n" ⟨1, "slack", 0⟩) "slack" "c" "n" 100
        (Except.ok [("access_token", PVal.str "tok")])
        = (Except.ok st, cachePop (cacheInsert [] "n" ⟨1, "slack", 0⟩) "n")) ∧
    (exchange_code_for_tokens
        (exchange_code_for_tokens (cacheInsert [] "n" ⟨1, "slack", 0⟩) "slack" "c" "n" 100
          (Except.ok [("access_token", PVal.str "tok")])).2
        "slack" "c2" "n" 150 (Except.ok [])).1 = Except.error GrantError.invalidState := by
  have h := nonce_consumed_exactly_once [] "slack" 1 "n" 0
    (cacheInsert [] "n" ⟨1, "slack", 0⟩) rfl
  exact ⟨h.1 "c" 100 [("access_token", PVal.str "tok")] (by omega) rfl,
    h.2.2 "slack" "c" 100 (Except.ok [("access_token", PVal.str "tok")]) "slack" "c2" 150
      (Except.ok [])⟩

/-! ## C8 -/

/-- Claim C8: completing with a handshake nonce older than 5 minutes fails
with ExpiredState, and the attempt destroys the handshake state for that
nonce, so a later attempt with the same nonce (any code, any service)
fails with InvalidState. -/
theorem expired_nonce_destroys_state (cache : StateCache) (nonce service code : String)
    (hs : HandshakeState) (now : Nat) (net : NetResult)
    (hget : cacheGet cache nonce = some hs)
    (hexp : now - hs.timestamp > 300) :
    exchange_code_for_tokens cache service code nonce now net
        = (.error .expiredState, cachePop cache nonce) ∧
    cacheGet (exchange_code_for_tokens cache service code nonce now net).2 nonce = none ∧
    (∀ svc2 code2 now2 net2,
      (exchange_code_for_tokens (cachePop cache nonce) svc2 code2 nonce now2 net2).1
        = .error .invalidState) := by
  have hmain : exchange_code_for_tokens cache service code nonce now net
      = (.error .expiredState, cachePop cache nonce) := by
    unfold exchange_code_for_tokens
    rw [hget]
    simp [hexp]
  refine ⟨hmain, ?_, ?_⟩
  · rw [hmain]
    exact cacheGet_pop _ _
  · intro svc2 code2 now2 net2
    rw [exchange_unknown _ _ _ _ _ _ (cacheGet_pop cache nonce)]

/-- Witness for C8: a nonce stored at time 0 and presented at time 301
(beyond the 300-second window) is rejected as ExpiredState and is gone;
re-presenting it is rejected as InvalidState. -/
theorem expired_nonce_destroys_state_witness :
    exchange_code_for_tokens [("n", ⟨1, "slack", 0⟩)] "slack" "c" "n" 301 (Except.ok [])
        = (.error .expiredState, cachePop [("n", ⟨1, "slack", 0⟩)] "n") ∧
    (exchange_code_for_tokens (cachePop [("n", ⟨1, "slack", 0⟩)] "n") "slack" "c" "n" 302
        (Except.ok [])).1 = .error .invalidState := by
  have h := expired_nonce_destroys_state [("n", ⟨1, "slack", 0⟩)] "n" "slack" "c"
    ⟨1, "slack", 0⟩ 301 (Except.ok []) rfl (by decide)
  exact ⟨h.1, h.2.2 "slack" "c" 302 (Except.ok [])⟩

/-! ## C1 -/

/-- Claim C1: for a (user, service) pair holding a token record,
`get_valid_token` returns the current access token when it is not expired
(including non-expiring records); when expired and a refresh token exists,
it refreshes via the provider's refresh endpoint and persists the new
token in the store before returning it; when expired with no refresh
token, it returns NoCredential (`none`). -/
theorem get_valid_token_spec (store : TokenStore) (uid : Nat) (svc : ServiceType)
    (now : Nat) (refreshEp : String → Option RefreshReply) (tok : OAuthToken)
    (hfind : store.find? (fun t => t.user_id == uid && t.service_type == svc) = some tok) :
    ((∀ e, tok.expires_at = some e → now < e) →
        get_valid_token store uid svc now refreshEp = (some tok.access_token, store)) ∧
    (∀ e rt reply, tok.expires_at = some e → e ≤ now → tok.refresh_token = some rt →
        refreshEp rt = some reply →
        (get_valid_token store uid svc now refreshEp).1 = some reply.access_token ∧
        ∀ t ∈ (get_valid_token store uid svc now refreshEp).2,
          (t.user_id == uid && t.service_type == svc) = true →
          t.access_token = reply.access_token ∧ t.expires_at = reply.expires_at) ∧
    (∀ e, tok.expires_at = some e → e ≤ now → tok.refresh_token = none →
        get_valid_token store uid svc now refreshEp = (none, store)) := by
  obtain ⟨tuid, tsvc, tacc, trt, texp⟩ := tok
  unfold get_valid_token
  rw [hfind]
  dsimp only
  refine ⟨?_, ?_, ?_⟩
  · intro hfresh
    cases texp with
    | none => simp
    | some e =>
      have hnow : now < e := hfresh e rfl
      have hnotle : ¬ e ≤ now := by omega
      simp [hnotle]
  · intro e rt reply he hle hrt hreply
    cases texp with
    | none => exact absurd he (by simp)
    | some e2 =>
      have he2 : e2 = e := by simpa using he
      subst he2
      cases trt with
      | none => exact absurd hrt (by simp)
      | some rt2 =>
        have hrt2 : rt2 = rt := by simpa using hrt
        subst hrt2
        refine ⟨by simp [hle, hreply], ?_⟩
        intro t ht hmatch
        simp [hle, hreply] at ht
        rcases ht with ⟨s, hsmem, rfl⟩
        by_cases hs : s.user_id = uid ∧ s.service_type = svc
        · rw [if_pos hs]
          exact ⟨rfl, rfl⟩
        · rw [if_neg hs] at hmatch ⊢
          simp only [Bool.and_eq_true, beq_iff_eq] at hmatch
          exact absurd hmatch hs
  · intro e he hle hrt
    cases texp with
    | none => exact absurd he (by simp)
    | some e2 =>
      have he2 : e2 = e := by simpa using he
      subst he2
      cases trt with
      | some rt2 => exact absurd hrt (by simp)
      | none => simp [hle]

/-- Witness for C1, one concrete store per case: a non-expired token is
served as-is; an expired token with refresh token "rt" is replaced by the
provider's fresh token "new" and the store is updated; an expired token
without refresh token yields NoCredential. -/
theorem get_valid_token_spec_witness :
    (get_valid_token [⟨1, ServiceType.slack, "tok", none, some 300⟩] 1 ServiceType.slack 200
        (fun _ => none) = (some "tok", [⟨1, ServiceType.slack, "tok", none, some 300⟩])) ∧
    ((get_valid_token [⟨1, ServiceType.slack, "old", some "rt", some 100⟩] 1 ServiceType.slack 200
        (fun _ => some ⟨"new", none, some 500⟩)).1 = some "new") ∧
    (∀ t ∈ (get_valid_token [⟨1, ServiceType.slack, "old", some "rt", some 100⟩] 1
        ServiceType.slack 200 (fun _ => some ⟨"new", none, some 500⟩)).2,
      (t.user_id == 1 && t.service_type == ServiceType.slack) = true →
      t.access_token = "new") ∧
    (get_valid_token [⟨1, ServiceType.slack, "old", none, some 100⟩] 1 ServiceType.slack 200
        (fun _ => none) = (none, [⟨1, ServiceType.slack, "old", none, some 100⟩])) := by
  have h1 := get_valid_token_spec [⟨1, ServiceType.slack, "tok", none, some 300⟩] 1
    ServiceType.slack 200 (fun _ => none) ⟨1, ServiceType.slack, "tok", none, some 300⟩ rfl
  have h2 := get_valid_token_spec [⟨1, ServiceType.slack, "old", some "rt", some 100⟩] 1
    ServiceType.slack 200 (fun _ => some ⟨"new", none, some 500⟩)
    ⟨1, ServiceType.slack, "old", some "rt", some 100⟩ rfl
  have h3 := get_valid_token_spec [⟨1, ServiceType.slack, "old", none, some 100⟩] 1
    ServiceType.slack 200 (fun _ => none) ⟨1, ServiceType.slack, "old", none, some 100⟩ rfl
  have h2' := h2.2.1 100 "rt" ⟨"new", none, some 500⟩ rfl (by omega) rfl rfl
  exact ⟨h1.1 (fun e he => by cases he; omega), h2'.1,
    fun t ht hm => (h2'.2 t ht hm).1,
    h3.2.2 100 rfl (by omega) rfl⟩

/-! ## Dispatch helper lemmas -/

/-- A dispatched call is finalized FAILED exactly when the intent fails,
and its result entry carries the matching status string. -/
theorem execFunctionCall_status (aid cid : Nat) (ev : IntentEvent) :
    (execFunctionCall aid cid ev).1.status
        = (if intentFails ev then ActionStatus.failed else ActionStatus.completed) ∧
    (execFunctionCall aid cid ev).2.status
        = (if intentFails ev then "failed" else "success") := by
  by_cases h1 : knownFunction ev.name = true
  · by_cases h2 : (requiredKeys ev.name).any (fun k => (dictGet ev.arguments k).isNone) = true
    · simp [execFunctionCall, runIntent, intentFails, h1, h2]
    · cases ho : ev.outcome with
      | ok r => simp [execFunctionCall, runIntent, intentFails, h1, h2, ho]
      | raise m => simp [execFunctionCall, runIntent, intentFails, h1, h2, ho]
  · simp [execFunctionCall, runIntent, intentFails, h1]

theorem compensationOf_isSome (n : String) (a r : Dict)
    (h : declaresCompensation n = true) : (compensationOf n a r).isSome = true := by
  simp only [declaresCompensation, List.mem_cons, List.not_mem_nil, or_false,
    decide_eq_true_eq] at h
  rcases h with rfl | rfl <;> rfl

/-! ## C6 -/

/-- Claim C6: a Call finalized FAILED carries no compensating data (both
the compensating-function and compensating-arguments are null); a Call
finalized COMPLETED whose capability declares a compensating operation
carries non-null compensating-arguments, set in the same finalization as
the response. -/
theorem compensation_atomic_with_result (aid cid : Nat) (ev : IntentEvent) :
    ((execFunctionCall aid cid ev).1.status = ActionStatus.failed →
      (execFunctionCall aid cid ev).1.rollback_function = none ∧
      (execFunctionCall aid cid ev).1.rollback_parameters = none) ∧
    ((execFunctionCall aid cid ev).1.status = ActionStatus.completed →
      declaresCompensation ev.name = true →
      (execFunctionCall aid cid ev).1.rollback_parameters ≠ none ∧
      (execFunctionCall aid cid ev).1.rollback_function ≠ none ∧
      (execFunctionCall aid cid ev).1.response ≠ none) := by
  cases hrun : runIntent ev with
  | error m =>
    refine ⟨fun _ => ?_, fun hc _ => ?_⟩
    · constructor <;> simp [execFunctionCall, hrun]
    · simp [execFunctionCall, hrun] at hc
  | ok r =>
    refine ⟨fun hf => ?_, fun _ hdecl => ?_⟩
    · simp [execFunctionCall, hrun] at hf
    · have hsome := compensationOf_isSome ev.name ev.arguments r hdecl
      refine ⟨?_, ?_, by simp [execFunctionCall, hrun]⟩ <;>
        · simp only [execFunctionCall, hrun]
          cases hc : compensationOf ev.name ev.arguments r with
          | none => rw [hc] at hsome; simp at hsome
          | some c => simp [hc]

/-- Witness for C6: the unknown-capability intent yields a FAILED call
with no compensating data; the successful ticket-creation intent yields a
COMPLETED call with compensating arguments present. -/
theorem compensation_atomic_with_result_witness :
    ((execFunctionCall 1 1 unknownIntent).1.rollback_function = none ∧
      (execFunctionCall 1 1 unknownIntent).1.rollback_parameters = none) ∧
    (execFunctionCall 1 2 jiraIntentOk).1.rollback_parameters ≠ none := by
  exact ⟨(compensation_atomic_with_result 1 1 unknownIntent).1 rfl,
    ((compensation_atomic_with_result 1 2 jiraIntentOk).2 rfl rfl).1⟩

/-! ## C2 -/

/-- Claim C2 (code-bug evidence): executing a command whose single intent
is a successful ticket creation produces a COMPLETED action one of whose
calls carries compensating data, yet the action's can_rollback flag is
still false and the response reports rollback_available = false —
`execute_command` never assigns `can_rollback`, so it keeps its column
default False. -/
theorem can_rollback_never_set :
    ((executeCommand ⟨[], []⟩ 1 "create a ticket" 0 9
        (LLMOutcome.respond none [jiraIntentOk]) 7 0).2.calls.map
        (fun c => (c.status, c.rollback_function))
      = [(ActionStatus.completed, some "delete_jira_ticket")]) ∧
    ((executeCommand ⟨[], []⟩ 1 "create a ticket" 0 9
        (LLMOutcome.respond none [jiraIntentOk]) 7 0).2.actions.map
        (fun a => (a.status, a.can_rollback))
      = [(ActionStatus.completed, false)]) ∧
    (executeCommand ⟨[], []⟩ 1 "create a ticket" 0 9
        (LLMOutcome.respond none [jiraIntentOk]) 7 0).1.rollback_available = false := by
  exact ⟨rfl, rfl, rfl⟩

/-! ## C9 -/

/-- Claim C9 counterexample: on the failure path, `execute_command` sets
completed-at but leaves duration unset — refuting "the finish transition
sets both completed-at and duration … on the failure path". -/
theorem failure_path_has_no_duration :
    (executeCommand ⟨[], []⟩ 1 "cmd" 0 7 (LLMOutcome.raise "API error") 3 0).2.actions.map
        (fun a => (a.status, a.completed_at, a.duration_ms))
      = [(ActionStatus.failed, some 7, none)] := rfl

/-- Claim C9 (amended): the finish transition sets completed-at on both
the success and the failure path, and the finalized action's status is
terminal (COMPLETED or FAILED); duration is set only on the success path —
on the failure path it remains unset. -/
theorem finish_sets_completed_at (db : DB) (uid : Nat) (cmd : String)
    (t0 t1 : Nat) (llm : LLMOutcome) (actionId firstCallId : Nat) :
    ∃ a, (executeCommand db uid cmd t0 t1 llm actionId firstCallId).2.actions
        = db.actions ++ [a] ∧
      a.completed_at = some t1 ∧
      (a.status = ActionStatus.completed ∨ a.status = ActionStatus.failed) ∧
      (a.status = ActionStatus.completed → a.duration_ms = some (t1 - t0)) ∧
      (a.status = ActionStatus.failed → a.duration_ms = none) ∧
      (∀ m, llm = LLMOutcome.raise m → a.status = ActionStatus.failed) := by
  unfold executeCommand
  cases h : callLlmWithFunctions actionId firstCallId llm with
  | ok p =>
    obtain ⟨out, fcs⟩ := p
    refine ⟨_, rfl, rfl, Or.inl rfl, fun _ => rfl, fun hc => ?_, fun m hm => ?_⟩
    · exact absurd hc (by simp)
    · rw [hm] at h
      exact absurd h (by simp [callLlmWithFunctions])
  | error msg =>
    refine ⟨_, rfl, rfl, Or.inr rfl, fun hc => ?_, fun _ => rfl, fun _ _ => rfl⟩
    exact absurd hc (by simp)

/-- Witness for C9's amended theorem at a concrete failing execution: the
finalized action has completed-at set and no duration. -/
theorem finish_sets_completed_at_witness :
    ∃ a, (executeCommand ⟨[], []⟩ 1 "c" 0 7 (LLMOutcome.raise "x") 5 0).2.actions = [a] ∧
      a.completed_at = some 7 ∧ a.duration_ms = none := by
  obtain ⟨a, h1, h2, _, _, h5, h6⟩ :=
    finish_sets_completed_at ⟨[], []⟩ 1 "c" 0 7 (LLMOutcome.raise "x") 5 0
  exact ⟨a, by simpa using h1, h2, h5 (h6 "x" rfl)⟩

/-! ## C4 -/

theorem forall2_dispatch_results (aid : Nat) (evs : List IntentEvent) : ∀ cid : Nat,
    List.Forall₂ (fun ev r => r.status = if intentFails ev then "failed" else "success")
      evs ((dispatchAll aid cid evs).map (fun q => q.2)) := by
  induction evs with
  | nil => intro cid; exact List.Forall₂.nil
  | cons ev rest ih =>
    intro cid
    simp only [dispatchAll, List.map_cons]
    exact List.Forall₂.cons (execFunctionCall_status aid cid ev).2 (ih (cid + 1))

theorem forall2_dispatch_calls (aid : Nat) (evs : List IntentEvent) : ∀ cid : Nat,
    List.Forall₂ (fun ev fc =>
        fc.status = if intentFails ev then ActionStatus.failed else ActionStatus.completed)
      evs ((dispatchAll aid cid evs).map (fun q => q.1)) := by
  induction evs with
  | nil => intro cid; exact List.Forall₂.nil
  | cons ev rest ih =>
    intro cid
    simp only [dispatchAll, List.map_cons]
    exact List.Forall₂.cons (execFunctionCall_status aid cid ev).1 (ih (cid + 1))

/-- Claim C4: when the model responds with a non-empty list of intents,
every intent yields exactly one result and one Call record (a per-intent
failure — unknown capability name, missing parameter, or adapter failure —
does not abort the remaining intents), each failing intent is recorded as
a FAILED call and a "failed" result entry, each succeeding intent as a
COMPLETED call and a "success" entry, and the action still reaches
COMPLETED with success reported. -/
theorem per_intent_failures_do_not_abort
    (db : DB) (uid : Nat) (cmd : String) (t0 t1 : Nat) (content : Option String)
    (evs : List IntentEvent) (actionId firstCallId : Nat) (hne : evs ≠ []) :
    (executeCommand db uid cmd t0 t1 (LLMOutcome.respond content evs) actionId
        firstCallId).1.success = true ∧
    (∃ a, (executeCommand db uid cmd t0 t1 (LLMOutcome.respond content evs) actionId
        firstCallId).2.actions = db.actions ++ [a] ∧ a.status = ActionStatus.completed) ∧
    (∃ rs summary,
      (executeCommand db uid cmd t0 t1 (LLMOutcome.respond content evs) actionId
          firstCallId).1.data = some (AgentData.output (AgentOutput.results rs summary)) ∧
      List.Forall₂ (fun ev r => r.status = if intentFails ev then "failed" else "success")
        evs rs) ∧
    (∃ newCalls,
      (executeCommand db uid cmd t0 t1 (LLMOutcome.respond content evs) actionId
          firstCallId).2.calls = db.calls ++ newCalls ∧
      List.Forall₂ (fun ev fc =>
          fc.status = if intentFails ev then ActionStatus.failed else ActionStatus.completed)
        evs newCalls) := by
  rcases evs with _ | ⟨e, es⟩
  · exact absurd rfl hne
  · refine ⟨rfl, ?_, ?_, ?_⟩
    · exact ⟨_, rfl, rfl⟩
    · exact ⟨_, _, rfl, forall2_dispatch_results actionId (e :: es) firstCallId⟩
    · exact ⟨_, rfl, forall2_dispatch_calls actionId (e :: es) firstCallId⟩

/-- Witness for C4: a two-intent command — an unknown capability followed
by a successful ticket creation — completes with a result list mixing a
failure and a success. -/
theorem per_intent_failures_do_not_abort_witness :
    (executeCommand ⟨[], []⟩ 1 "mix" 0 9
        (LLMOutcome.respond none [unknownIntent, jiraIntentOk]) 7 0).1.success = true ∧
    (∃ rs summary,
      (executeCommand ⟨[], []⟩ 1 "mix" 0 9
          (LLMOutcome.respond none [unknownIntent, jiraIntentOk]) 7 0).1.data
        = some (AgentData.output (AgentOutput.results rs summary)) ∧
      rs.map (fun r => r.status) = ["failed", "success"]) := by
  obtain ⟨h1, _, ⟨rs, summary, hdata, hf⟩, _⟩ :=
    per_intent_failures_do_not_abort ⟨[], []⟩ 1 "mix" 0 9 none
      [unknownIntent, jiraIntentOk] 7 0 (by simp)
  refine ⟨h1, rs, summary, hdata, ?_⟩
  rcases hf with _ | ⟨hr1, hf⟩
  rcases hf with _ | ⟨hr2, hf⟩
  rcases hf
  simp only [List.map_cons, List.map_nil, hr1, hr2]
  rfl

/-! ## C3 -/

/-- Claim C3 counterexample: a rollback in which the single compensation
attempt fails still returns success = true, refuting "the aggregate
success flag of the rollback result is true if and only if every
individual compensation attempt succeeded". -/
theorem rollback_success_flag_counterexample :
    (rollback_action dbOneCompensable 1 10 "undo" 99
        (fun _ => Except.error "boom")).1.success = true ∧
    (rollback_action dbOneCompensable 1 10 "undo" 99
        (fun _ => Except.error "boom")).1.data
      = some (AgentData.rollback_results
          [{ function_call_id := 1, rollback_function := some "delete_s3_object",
             result := none, error := some "boom" }]) ∧
    ¬ (∀ e ∈ [{ function_call_id := 1, rollback_function := some "delete_s3_object",
                result := none, error := some "boom" : RollbackResult }], e.error = none) := by
  refine ⟨rfl, rfl, ?_⟩
  intro h
  exact absurd (h _ (List.mem_singleton.mpr rfl)) (by simp)

/-- Claim C3 (amended): after all compensation attempts the Action is
marked ROLLED_BACK even if every compensation failed, and the aggregate
success flag of the rollback response is true regardless of whether the
individual compensation attempts succeeded — per-attempt outcomes are
reported only in the per-call results. -/
theorem rollback_marks_rolled_back_and_reports_success
    (db : DB) (uid aid : Nat) (reason : String) (now : Nat)
    (comp : FunctionCall → Except String Dict) (action : AutomationAction)
    (hfind : db.actions.find? (fun a => a.id == aid && a.user_id == uid) = some action)
    (hcr : action.can_rollback = true)
    (hst : action.status ≠ ActionStatus.rolled_back) :
    (rollback_action db uid aid reason now comp).1.success = true ∧
    ∀ a ∈ (rollback_action db uid aid reason now comp).2.actions,
      a.id = action.id →
      a.status = ActionStatus.rolled_back ∧ a.rolled_back_at = some now := by
  have hst2 : (action.status == ActionStatus.rolled_back) = false := by
    cases hs : action.status <;> simp_all
  unfold rollback_action
  rw [hfind]
  simp only [hcr, hst2, Bool.not_true, Bool.false_eq_true, if_false]
  refine ⟨trivial, ?_⟩
  intro a ha hid
  rcases List.mem_map.mp ha with ⟨s, hsmem, rfl⟩
  by_cases hp : (s.id == action.id) = true
  · rw [if_pos hp]
    exact ⟨rfl, rfl⟩
  · rw [if_neg hp] at hid ⊢
    exact absurd hid (by simpa using hp)

/-- Witness for C3's amended theorem: an all-compensations-failed rollback
of the one-call fixture reports success and marks the action ROLLED_BACK. -/
theorem rollback_marks_rolled_back_witness :
    (rollback_action dbOneCompensable 1 10 "undo" 99
        (fun _ => Except.error "err")).1.success = true ∧
    ∀ a ∈ (rollback_action dbOneCompensable 1 10 "undo" 99
        (fun _ => Except.error "err")).2.actions,
      a.id = 10 → a.status = ActionStatus.rolled_back := by
  have h := rollback_marks_rolled_back_and_reports_success dbOneCompensable 1 10 "undo" 99
    (fun _ => Except.error "err") _ rfl rfl (by decide)
  exact ⟨h.1, fun a ha hid => (h.2 a ha hid).1⟩

/-! ## C5 -/

theorem pairwise_strict_of_desc_and_ne {l : List FunctionCall}
    (h1 : List.Pairwise (fun a b => b.called_at ≤ a.called_at) l)
    (h2 : List.Pairwise (fun a b => a.called_at ≠ b.called_at) l) :
    List.Pairwise (fun a b => b.called_at < a.called_at) l := by
  induction l with
  | nil => exact List.Pairwise.nil
  | cons x xs ih =>
    rcases List.pairwise_cons.mp h1 with ⟨hx1, ht1⟩
    rcases List.pairwise_cons.mp h2 with ⟨hx2, ht2⟩
    exact List.pairwise_cons.mpr
      ⟨fun b hb => lt_of_le_of_ne (hx1 b hb) (Ne.symm (hx2 b hb)), ih ht1 ht2⟩

/-- Claim C5: an eligible rollback selects exactly the Calls of the action
that carry compensating data (the invoked list is a permutation of them)
and invokes their compensations in descending call-time order — strictly
decreasing whenever the call times are pairwise distinct. -/
theorem rollback_selects_and_orders_compensations
    (db : DB) (uid aid : Nat) (reason : String) (now : Nat)
    (comp : FunctionCall → Except String Dict) (action : AutomationAction)
    (hfind : db.actions.find? (fun a => a.id == aid && a.user_id == uid) = some action)
    (hcr : action.can_rollback = true)
    (hst : action.status ≠ ActionStatus.rolled_back) :
    (∃ rs, (rollback_action db uid aid reason now comp).1.data
        = some (AgentData.rollback_results rs) ∧
      rs.map (fun e => e.function_call_id) = (rollbackOrder db aid).map (fun c => c.id)) ∧
    (rollbackOrder db aid).Perm (compensableCalls db aid) ∧
    List.Pairwise (fun a b => b.called_at ≤ a.called_at) (rollbackOrder db aid) ∧
    ((compensableCalls db aid).Pairwise (fun a b => a.called_at ≠ b.called_at) →
      List.Pairwise (fun a b => b.called_at < a.called_at) (rollbackOrder db aid)) := by
  have hst2 : (action.status == ActionStatus.rolled_back) = false := by
    cases hs : action.status <;> simp_all
  have hperm : (rollbackOrder db aid).Perm (compensableCalls db aid) :=
    List.perm_insertionSort _ _
  have hsorted : List.Pairwise (fun a b => b.called_at ≤ a.called_at) (rollbackOrder db aid) :=
    List.sorted_insertionSort _ _
  refine ⟨?_, hperm, hsorted, ?_⟩
  · unfold rollback_action
    rw [hfind]
    simp only [hcr, hst2, Bool.not_true, Bool.false_eq_true, if_false]
    refine ⟨_, rfl, ?_⟩
    rw [List.map_map]
    refine List.map_congr_left ?_
    intro fc _
    simp only [Function.comp_apply]
    cases comp fc <;> rfl
  · intro hdist
    have hne : (rollbackOrder db aid).Pairwise (fun a b => a.called_at ≠ b.called_at) :=
      (List.Perm.pairwise_iff (fun hab => Ne.symm hab) hperm).mpr hdist
    exact pairwise_strict_of_desc_and_ne hsorted hne

/-- Witness for C5: three compensable calls at times 5 < 7 < 9 (ids 1, 2,
3) are compensated in the order 3, 2, 1. -/
theorem rollback_selects_and_orders_witness :
    ∃ rs, (rollback_action dbThreeCompensable 1 10 "undo" 99
        (fun _ => Except.ok [])).1.data = some (AgentData.rollback_results rs) ∧
      rs.map (fun e => e.function_call_id) = [3, 2, 1] := by
  obtain ⟨⟨rs, hdata, hids⟩, -, -, -⟩ :=
    rollback_selects_and_orders_compensations dbThreeCompensable 1 10 "undo" 99
      (fun _ => Except.ok []) _ rfl rfl (by decide)
  refine ⟨rs, hdata, ?_⟩
  rw [hids]
  rfl

/-! ## C10 -/

/-- Claim C10: a rollback request rejected by a precondition check (the
action does not exist for the requesting user, its can_rollback flag is
false, or it is already ROLLED_BACK) returns a failure response carrying
no rollback results, and leaves the store entirely unchanged — no action
or call field is modified and no compensating operation is invoked. -/
theorem rejected_rollback_changes_nothing (db : DB) (uid aid : Nat) (reason : String)
    (now : Nat) (comp : FunctionCall → Except String Dict)
    (h : db.actions.find? (fun a => a.id == aid && a.user_id == uid) = none ∨
      ∃ action, db.actions.find? (fun a => a.id == aid && a.user_id == uid) = some action ∧
        (action.can_rollback = false ∨ action.status = ActionStatus.rolled_back)) :
    (rollback_action db uid aid reason now comp).1.success = false ∧
    (rollback_action db uid aid reason now comp).1.data = none ∧
    (rollback_action db uid aid reason now comp).2 = db := by
  unfold rollback_action
  rcases h with hnone | ⟨action, hfind, hcase⟩
  · rw [hnone]
    exact ⟨rfl, rfl, rfl⟩
  · rw [hfind]
    dsimp only
    rcases hcase with hcr | hst
    · simp [hcr]
    · by_cases hcr : action.can_rollback
      · simp [hcr, hst]
      · simp [hcr]

/-- Witness for C10: a rollback request for an action id absent from the
store is rejected and the store is returned unchanged. -/
theorem rejected_rollback_changes_nothing_witness :
    (rollback_action ⟨[], []⟩ 1 10 "undo" 5 (fun _ => Except.ok [])).1.success = false ∧
    (rollback_action ⟨[], []⟩ 1 10 "undo" 5 (fun _ => Except.ok [])).2 = ⟨[], []⟩ := by
  have h := rejected_rollback_changes_nothing ⟨[], []⟩ 1 10 "undo" 5 (fun _ => Except.ok [])
    (Or.inl rfl)
  exact ⟨h.1, h.2.2⟩

end AutomationCore
